import Mathlib

/-!
Verification of the compliance decision core of the `maersk-remote-work-portal`
repository: a shallow embedding, in Lean 4, of the blocked-country
classification table (`apps/compliance/blocked_countries.py`), the ordered
compliance rule set (`apps/compliance/rules.py`), the compliance service
(`apps/compliance/services.py`), the workday calculator
(`apps/requests/models.py`), and the overlap detector and SIRW wizard flag
logic (`apps/requests/views.py`), together with theorems settling the
specification claims about them.

Modelling conventions:
- Python `str` is modelled as Lean `String`; `str.lower()`, `str.upper()` and
  `str.strip()` are modelled by the list-based functions `pyLower`, `pyUpper`
  and `pyStrip` below (ASCII case mapping and whitespace stripping, which is
  what these functions do on the data in this program).
- Python `datetime.date` is modelled by its proleptic Gregorian ordinal
  (`date.toordinal()`) as an `Int`; `date.weekday()` (Monday = 0) is then
  `(ordinal - 1) % 7`.
- Python `int` is modelled as `Int`.
- A rule's `evaluate`, which may raise, is modelled as returning
  `Except String ComplianceRule`; all concrete registered rules are total and
  return `.ok`.
-/

namespace RemoteWork

/-- Models Python's `str.lower()` (ASCII case mapping). -/
def pyLower (s : String) : String :=
  ⟨s.data.map Char.toLower⟩

/-- Models Python's `str.upper()` (ASCII case mapping). -/
def pyUpper (s : String) : String :=
  ⟨s.data.map Char.toUpper⟩

/-- Whitespace characters removed by Python's `str.strip()` (ASCII range). -/
def isPySpace (c : Char) : Bool :=
  c == ' ' || c == '\t' || c == '\n' || c == '\r'

/-- Models Python's `str.strip()`: drop whitespace from both ends. -/
def pyStrip (s : String) : String :=
  ⟨((s.data.dropWhile isPySpace).reverse.dropWhile isPySpace).reverse⟩

/-- `@dataclass ComplianceRule` from `apps/compliance/rules.py`: a rule
evaluation verdict with name, pass flag, reason and severity. -/
structure ComplianceRule where
  name : String
  passed : Bool
  reason : String
  severity : String
deriving DecidableEq, Repr

/-- `@dataclass BlockedCountry` from `apps/compliance/blocked_countries.py`. -/
structure BlockedCountry where
  name : String
  code : String
  reason : String
  region : String
deriving DecidableEq, Repr

/-- `SANCTIONED_COUNTRIES` from `apps/compliance/blocked_countries.py`. -/
def SANCTIONED_COUNTRIES : List BlockedCountry := [
  ⟨"Afghanistan", "AF", "sanctions", "Asia Pacific"⟩,
  ⟨"North Korea", "KP", "sanctions", "Asia Pacific"⟩,
  ⟨"Iran", "IR", "sanctions", "Asia Pacific"⟩,
  ⟨"Iraq", "IQ", "sanctions", "Asia Pacific"⟩,
  ⟨"Myanmar", "MM", "sanctions", "Asia Pacific"⟩,
  ⟨"Bosnia and Herzegovina", "BA", "sanctions", "Europe"⟩,
  ⟨"Russia", "RU", "sanctions", "Europe"⟩,
  ⟨"Turkey", "TR", "sanctions", "Europe"⟩,
  ⟨"Ukraine", "UA", "sanctions", "Europe"⟩,
  ⟨"Central African Republic", "CF", "sanctions", "IMEA"⟩,
  ⟨"Congo (DRC)", "CD", "sanctions", "IMEA"⟩,
  ⟨"Guinea", "GN", "sanctions", "IMEA"⟩,
  ⟨"Libya", "LY", "sanctions", "IMEA"⟩,
  ⟨"Somalia", "SO", "sanctions", "IMEA"⟩,
  ⟨"South Sudan", "SS", "sanctions", "IMEA"⟩,
  ⟨"Sudan", "SD", "sanctions", "IMEA"⟩,
  ⟨"Syria", "SY", "sanctions", "IMEA"⟩,
  ⟨"Yemen", "YE", "sanctions", "IMEA"⟩,
  ⟨"Zimbabwe", "ZW", "sanctions", "IMEA"⟩,
  ⟨"Haiti", "HT", "sanctions", "North America"⟩,
  ⟨"Nicaragua", "NI", "sanctions", "North America"⟩,
  ⟨"Venezuela", "VE", "sanctions", "Latin America"⟩]

/-- `NO_ENTITY_COUNTRIES` from `apps/compliance/blocked_countries.py`. -/
def NO_ENTITY_COUNTRIES : List BlockedCountry := [
  ⟨"Brunei", "BN", "no_entity", "Asia Pacific"⟩,
  ⟨"Bhutan", "BT", "no_entity", "Asia Pacific"⟩,
  ⟨"Fiji", "FJ", "no_entity", "Asia Pacific"⟩,
  ⟨"Kiribati", "KI", "no_entity", "Asia Pacific"⟩,
  ⟨"Laos", "LA", "no_entity", "Asia Pacific"⟩,
  ⟨"Maldives", "MV", "no_entity", "Asia Pacific"⟩,
  ⟨"Marshall Islands", "MH", "no_entity", "Asia Pacific"⟩,
  ⟨"Micronesia", "FM", "no_entity", "Asia Pacific"⟩,
  ⟨"Mongolia", "MN", "no_entity", "Asia Pacific"⟩,
  ⟨"Nauru", "NR", "no_entity", "Asia Pacific"⟩,
  ⟨"Nepal", "NP", "no_entity", "Asia Pacific"⟩,
  ⟨"Palau", "PW", "no_entity", "Asia Pacific"⟩,
  ⟨"Papua New Guinea", "PG", "no_entity", "Asia Pacific"⟩,
  ⟨"Samoa", "WS", "no_entity", "Asia Pacific"⟩,
  ⟨"Solomon Islands", "SB", "no_entity", "Asia Pacific"⟩,
  ⟨"Timor-Leste", "TL", "no_entity", "Asia Pacific"⟩,
  ⟨"Tonga", "TO", "no_entity", "Asia Pacific"⟩,
  ⟨"Turkmenistan", "TM", "no_entity", "Asia Pacific"⟩,
  ⟨"Tuvalu", "TV", "no_entity", "Asia Pacific"⟩,
  ⟨"Uzbekistan", "UZ", "no_entity", "Asia Pacific"⟩,
  ⟨"Vanuatu", "VU", "no_entity", "Asia Pacific"⟩,
  ⟨"Albania", "AL", "no_entity", "Europe"⟩,
  ⟨"Andorra", "AD", "no_entity", "Europe"⟩,
  ⟨"Armenia", "AM", "no_entity", "Europe"⟩,
  ⟨"Azerbaijan", "AZ", "no_entity", "Europe"⟩,
  ⟨"Cyprus", "CY", "no_entity", "Europe"⟩,
  ⟨"Iceland", "IS", "no_entity", "Europe"⟩,
  ⟨"Liechtenstein", "LI", "no_entity", "Europe"⟩,
  ⟨"Luxembourg", "LU", "no_entity", "Europe"⟩,
  ⟨"Malta", "MT", "no_entity", "Europe"⟩,
  ⟨"Monaco", "MC", "no_entity", "Europe"⟩,
  ⟨"Montenegro", "ME", "no_entity", "Europe"⟩,
  ⟨"North Macedonia", "MK", "no_entity", "Europe"⟩,
  ⟨"Moldova", "MD", "no_entity", "Europe"⟩,
  ⟨"San Marino", "SM", "no_entity", "Europe"⟩,
  ⟨"Burundi", "BI", "no_entity", "IMEA"⟩,
  ⟨"Chad", "TD", "no_entity", "IMEA"⟩,
  ⟨"Comoros", "KM", "no_entity", "IMEA"⟩,
  ⟨"Equatorial Guinea", "GQ", "no_entity", "IMEA"⟩,
  ⟨"Eritrea", "ER", "no_entity", "IMEA"⟩,
  ⟨"Guinea-Bissau", "GW", "no_entity", "IMEA"⟩,
  ⟨"Kazakhstan", "KZ", "no_entity", "IMEA"⟩,
  ⟨"Kyrgyzstan", "KG", "no_entity", "IMEA"⟩,
  ⟨"Sao Tome and Principe", "ST", "no_entity", "IMEA"⟩,
  ⟨"Seychelles", "SC", "no_entity", "IMEA"⟩,
  ⟨"Tajikistan", "TJ", "no_entity", "IMEA"⟩,
  ⟨"Antigua and Barbuda", "AG", "no_entity", "North America"⟩,
  ⟨"Bahamas", "BS", "no_entity", "North America"⟩,
  ⟨"Barbados", "BB", "no_entity", "North America"⟩,
  ⟨"Cuba", "CU", "no_entity", "North America"⟩,
  ⟨"Dominica", "DM", "no_entity", "North America"⟩,
  ⟨"Grenada", "GD", "no_entity", "North America"⟩,
  ⟨"Jamaica", "JM", "no_entity", "North America"⟩,
  ⟨"Saint Kitts and Nevis", "KN", "no_entity", "North America"⟩,
  ⟨"Saint Lucia", "LC", "no_entity", "North America"⟩,
  ⟨"Saint Vincent and the Grenadines", "VC", "no_entity", "North America"⟩,
  ⟨"Belize", "BZ", "no_entity", "Latin America"⟩,
  ⟨"Guyana", "GY", "no_entity", "Latin America"⟩,
  ⟨"Suriname", "SR", "no_entity", "Latin America"⟩]

/-- `ALL_BLOCKED_COUNTRIES = SANCTIONED_COUNTRIES + NO_ENTITY_COUNTRIES`. -/
def ALL_BLOCKED_COUNTRIES : List BlockedCountry :=
  SANCTIONED_COUNTRIES ++ NO_ENTITY_COUNTRIES

/-- The Python set of the codes of `SANCTIONED_COUNTRIES`, as a list. -/
def SANCTIONED_COUNTRY_CODES : List String :=
  SANCTIONED_COUNTRIES.map (fun c => c.code)

/-- The Python set of the lowered names of `SANCTIONED_COUNTRIES`, as a list. -/
def SANCTIONED_COUNTRY_NAMES : List String :=
  SANCTIONED_COUNTRIES.map (fun c => pyLower c.name)

/-- The Python set of the codes of `NO_ENTITY_COUNTRIES`, as a list. -/
def NO_ENTITY_COUNTRY_CODES : List String :=
  NO_ENTITY_COUNTRIES.map (fun c => c.code)

/-- The Python set of the lowered names of `NO_ENTITY_COUNTRIES`, as a list. -/
def NO_ENTITY_COUNTRY_NAMES : List String :=
  NO_ENTITY_COUNTRIES.map (fun c => pyLower c.name)

/-- `ALL_BLOCKED_COUNTRY_CODES` (set union modelled as list append). -/
def ALL_BLOCKED_COUNTRY_CODES : List String :=
  SANCTIONED_COUNTRY_CODES ++ NO_ENTITY_COUNTRY_CODES

/-- `ALL_BLOCKED_COUNTRY_NAMES` (set union modelled as list append). -/
def ALL_BLOCKED_COUNTRY_NAMES : List String :=
  SANCTIONED_COUNTRY_NAMES ++ NO_ENTITY_COUNTRY_NAMES

/-- `is_country_blocked` from `apps/compliance/blocked_countries.py`. -/
def is_country_blocked (country : String) : Bool :=
  let country_lower := pyStrip (pyLower country)
  let country_upper := pyStrip (pyUpper country)
  ALL_BLOCKED_COUNTRY_NAMES.contains country_lower
    || ALL_BLOCKED_COUNTRY_CODES.contains country_upper

/-- `get_block_reason` from `apps/compliance/blocked_countries.py`. -/
def get_block_reason (country : String) : Option String :=
  let country_lower := pyStrip (pyLower country)
  let country_upper := pyStrip (pyUpper country)
  if SANCTIONED_COUNTRY_NAMES.contains country_lower
      || SANCTIONED_COUNTRY_CODES.contains country_upper then
    some "sanctions"
  else if NO_ENTITY_COUNTRY_NAMES.contains country_lower
      || NO_ENTITY_COUNTRY_CODES.contains country_upper then
    some "no_entity"
  else
    none

/-- `get_blocked_country_info` from `apps/compliance/blocked_countries.py`:
first entry of the combined list whose lowered name or code matches. -/
def get_blocked_country_info (country : String) : Option BlockedCountry :=
  let country_lower := pyStrip (pyLower country)
  let country_upper := pyStrip (pyUpper country)
  ALL_BLOCKED_COUNTRIES.find? fun blocked =>
    pyLower blocked.name == country_lower || blocked.code == country_upper

/-- `get_block_message` from `apps/compliance/blocked_countries.py`. -/
def get_block_message (country : String) : Option String :=
  match get_blocked_country_info country with
  | none => none
  | some info =>
    if info.reason == "sanctions" then
      some ("SIRW to " ++ info.name ++ " is not permitted. This country is currently subject " ++
        "to UN/EU sanctions, and remote work from this location would expose both " ++
        "Maersk and the employee to significant legal and compliance risks.")
    else
      some ("SIRW to " ++ info.name ++ " is not permitted. Maersk does not have a legal entity " ++
        "in this country, which means we cannot ensure compliance with local tax, " ++
        "immigration, and employment regulations.")

/-- The `evaluation_context` dict built by `ComplianceService.assess`
(`apps/compliance/services.py`), as a typed record.  The optional
`ineligible_role_categories` kwarg (consumed by `IneligibleRoleRule`)
defaults to Python `None`. -/
structure EvaluationContext where
  has_right_to_work : Bool
  is_sales_role : Bool
  duration_days : Int
  home_country : String
  destination_country : String
  ineligible_role_categories : Option (List String) := none
deriving DecidableEq, Repr

/-- `REMOTE_WORK_SETTINGS["MAX_SINGLE_TRIP_DAYS"]` from
`config/settings/base.py` (the `.get` default in `DurationRule.__init__`
is also 20). -/
def MAX_SINGLE_TRIP_DAYS : Int := 20

/-- `REMOTE_WORK_SETTINGS["MAX_CONSECUTIVE_DAYS"]` from
`config/settings/base.py` (the `.get` default in
`ConsecutiveDaysRule.__init__` is also 14). -/
def MAX_CONSECUTIVE_DAYS : Int := 14

/-- `REMOTE_WORK_SETTINGS["DEFAULT_DAYS_ALLOWED"]` from
`config/settings/base.py`. -/
def DEFAULT_DAYS_ALLOWED : Int := 20

/-- `BlockedCountryRule.evaluate` from `apps/compliance/rules.py`.
Python's `block_message or 'SIRW to this country is not permitted'` is
`Option.getD` here (`get_block_message` never returns an empty string). -/
def BlockedCountryRule_evaluate (ctx : EvaluationContext) : ComplianceRule :=
  if !is_country_blocked ctx.destination_country then
    { name := "Blocked Country Check"
      passed := true
      reason := ctx.destination_country ++ " is an eligible destination for SIRW."
      severity := "info" }
  else
    let block_message := get_block_message ctx.destination_country
    { name := "Blocked Country Check"
      passed := false
      reason := (block_message.getD "SIRW to this country is not permitted") ++
        " (Policy Appendix A)."
      severity := "block" }

/-- `RightToWorkRule.evaluate` from `apps/compliance/rules.py`. -/
def RightToWorkRule_evaluate (ctx : EvaluationContext) : ComplianceRule :=
  if ctx.has_right_to_work then
    { name := "Right to Work"
      passed := true
      reason := "Employee has right to work in " ++ ctx.destination_country ++ "."
      severity := "info" }
  else
    { name := "Right to Work"
      passed := false
      reason := "Employee does not have right to work in " ++ ctx.destination_country ++
        ". Remote work cannot be approved without valid work authorisation (Policy Section 4.1.3)."
      severity := "block" }

/-- `DurationRule.evaluate` from `apps/compliance/rules.py`, parameterised by
the configured `max_days` read in `DurationRule.__init__`. -/
def DurationRule_evaluate (max_days : Int) (ctx : EvaluationContext) : ComplianceRule :=
  if ctx.duration_days ≤ max_days then
    { name := "Duration Limit"
      passed := true
      reason := "Duration of " ++ toString ctx.duration_days ++ " days is within the " ++
        toString max_days ++ "-day limit."
      severity := "info" }
  else
    { name := "Duration Limit"
      passed := false
      reason := "Duration of " ++ toString ctx.duration_days ++ " days exceeds the maximum allowed " ++
        toString max_days ++ " days for short-term remote work. " ++
        "Please shorten your request or apply for a permanent transfer (Policy Section 4.1.2)."
      severity := "block" }

/-- `SameCountryRule.evaluate` from `apps/compliance/rules.py`: informational
only, `passed` is `true` in both branches. -/
def SameCountryRule_evaluate (ctx : EvaluationContext) : ComplianceRule :=
  if pyLower ctx.home_country != pyLower ctx.destination_country then
    { name := "Same Country Check"
      passed := true
      reason := "Cross-border remote work from " ++ ctx.home_country ++ " to " ++
        ctx.destination_country ++ "."
      severity := "info" }
  else
    { name := "Same Country Check"
      passed := true
      reason := "Working from home country (" ++ ctx.home_country ++
        "). This may not require cross-border compliance review."
      severity := "info" }

/-- `ConsecutiveDaysRule.evaluate` from `apps/compliance/rules.py`,
parameterised by the configured `max_consecutive_days`. -/
def ConsecutiveDaysRule_evaluate (max_consecutive_days : Int) (ctx : EvaluationContext) :
    ComplianceRule :=
  if ctx.duration_days ≤ max_consecutive_days then
    { name := "Consecutive Days Limit"
      passed := true
      reason := "Duration of " ++ toString ctx.duration_days ++ " days is within the " ++
        toString max_consecutive_days ++ "-day consecutive limit."
      severity := "info" }
  else
    { name := "Consecutive Days Limit"
      passed := false
      reason := "Duration of " ++ toString ctx.duration_days ++
        " consecutive days exceeds the maximum allowed " ++
        toString max_consecutive_days ++ " consecutive workdays. The 20-day annual allowance " ++
        "cannot be taken as a single continuous block. Please shorten your request " ++
        "or split into multiple trips (Policy Section 4.1.2)."
      severity := "block" }

/-- `IneligibleRoleRule.INELIGIBLE_CATEGORIES` from `apps/compliance/rules.py`. -/
def INELIGIBLE_CATEGORIES : List String := [
  "frontline_customer_facing",
  "onsite_required",
  "legal_restrictions",
  "commercial_sales",
  "procurement",
  "senior_executive"]

/-- The `category_messages` dict lookup `category_messages.get(cat, cat)`
inside `IneligibleRoleRule.evaluate`. -/
def category_messages (cat : String) : String :=
  if cat == "frontline_customer_facing" then "frontline or customer-facing role"
  else if cat == "onsite_required" then "role that must be performed on-site"
  else if cat == "legal_restrictions" then "role with legal restrictions preventing remote work abroad"
  else if cat == "commercial_sales" then "commercial/sales role with contract signing authority"
  else if cat == "procurement" then "procurement role with contract signing authority"
  else if cat == "senior_executive" then "senior executive leadership role"
  else cat

/-- `IneligibleRoleRule.evaluate` from `apps/compliance/rules.py`.  Python's
`if ineligible_role_categories:` (falsy for `None` and for `[]`) is modelled
by `getD []` followed by a non-emptiness test; the list comprehension
`[messages.get(cat, cat) for cat in cats if cat in INELIGIBLE_CATEGORIES]`
is `filter` then `map`. -/
def IneligibleRoleRule_evaluate (ctx : EvaluationContext) : ComplianceRule :=
  if ctx.is_sales_role then
    { name := "Role Eligibility Check"
      passed := false
      reason := "Employee has contract signing authority which may create " ++
        "Permanent Establishment risk. Sales and commercial roles with " ++
        "contract signing authority are not eligible for SIRW (Policy Section 4.1.1)."
      severity := "block" }
  else
    let cats := ctx.ineligible_role_categories.getD []
    let flagged := (cats.filter (fun cat => INELIGIBLE_CATEGORIES.contains cat)).map category_messages
    if !cats.isEmpty && !flagged.isEmpty then
      { name := "Role Eligibility Check"
        passed := false
        reason := "Employee is in an ineligible role category: " ++
          String.intercalate ", " flagged ++
          ". SIRW is not available for this role type (Policy Section 4.1.1)."
        severity := "block" }
    else
      { name := "Role Eligibility Check"
        passed := true
        reason := "Employee role is eligible for SIRW."
        severity := "info" }

/-- A registered rule as seen by `ComplianceService.assess`: its class-level
`name` attribute and its `evaluate` method, which may raise (`.error`). -/
structure Rule where
  name : String
  evaluate : EvaluationContext → Except String ComplianceRule

/-- Wraps a total evaluation function as a `Rule` that never raises. -/
def totalRule (name : String) (f : EvaluationContext → ComplianceRule) : Rule :=
  { name := name, evaluate := fun ctx => .ok (f ctx) }

/-- `COMPLIANCE_RULES` from `apps/compliance/rules.py`: the registered rules
in registration order, with their configured limits. -/
def COMPLIANCE_RULES : List Rule := [
  totalRule "Blocked Country Check" BlockedCountryRule_evaluate,
  totalRule "Right to Work" RightToWorkRule_evaluate,
  totalRule "Role Eligibility Check" IneligibleRoleRule_evaluate,
  totalRule "Duration Limit" (DurationRule_evaluate MAX_SINGLE_TRIP_DAYS),
  totalRule "Consecutive Days Limit" (ConsecutiveDaysRule_evaluate MAX_CONSECUTIVE_DAYS),
  totalRule "Same Country Check" SameCountryRule_evaluate]

/-- The `try/except` body of the loop in `ComplianceService.assess`: the
rule's verdict, or the synthetic `warn` verdict built in the `except` arm. -/
def evalRule (rule : Rule) (ctx : EvaluationContext) : ComplianceRule :=
  match rule.evaluate ctx with
  | .ok result => result
  | .error e =>
    { name := rule.name
      passed := false
      reason := "Error evaluating rule: " ++ e
      severity := "warn" }

/-- The dict returned by `ComplianceService.assess`. -/
structure AssessmentResult where
  outcome : String
  reason : String
  rules : List ComplianceRule
  escalation_note : String
deriving DecidableEq, Repr

/-- `ComplianceService.assess` from `apps/compliance/services.py`.  The loop
appends, in registration order, one verdict per rule to `rule_results` and
the failed ones to `blocking_failures` / `warnings`; those three lists are
the `map` and the two `filter`s below (a synthetic error verdict always has
severity `"warn"`, so it is never a blocking failure).  Python's
`if blocking_failures:` / `elif warnings:` are the non-emptiness tests. -/
def assess (rules : List Rule) (ctx : EvaluationContext) : AssessmentResult :=
  let rule_results := rules.map fun r => evalRule r ctx
  let blocking_failures := rule_results.filter fun r => !r.passed && r.severity == "block"
  let warnings := rule_results.filter fun r => !r.passed && r.severity == "warn"
  if blocking_failures ≠ [] then
    { outcome := "rejected"
      reason := String.intercalate " | " (blocking_failures.map fun f => f.reason)
      rules := rule_results
      escalation_note := "" }
  else if warnings ≠ [] then
    let main_reason := "Manual review required. " ++
      String.intercalate " | " (warnings.map fun w => w.reason)
    { outcome := "escalated"
      reason := main_reason
      rules := rule_results
      escalation_note := main_reason }
  else
    { outcome := "approved"
      reason := "All compliance checks passed. Remote work in " ++ ctx.destination_country ++
        " for " ++ toString ctx.duration_days ++ " days is approved."
      rules := rule_results
      escalation_note := "" }

/-- Python `date.weekday()` (Monday = 0) on a proleptic Gregorian ordinal:
ordinal 1 (0001-01-01) is a Monday. -/
def weekday (ordinal : Int) : Int :=
  (ordinal - 1) % 7

/-- The `while current <= end_date` loop of `calculate_workdays`
(`apps/requests/models.py`), counting days with `weekday() < 5`. -/
def countWorkdays (current endOrd : Int) : Nat :=
  if current ≤ endOrd then
    (if weekday current < 5 then 1 else 0) + countWorkdays (current + 1) endOrd
  else 0
termination_by (endOrd + 1 - current).toNat
decreasing_by omega

/-- `calculate_workdays` from `apps/requests/models.py`: `None` dates give 0
(`if not start_date or not end_date`); an actual `date` object is always
truthy in Python. -/
def calculate_workdays (start_date end_date : Option Int) : Nat :=
  match start_date, end_date with
  | some s, some e => countWorkdays s e
  | _, _ => 0

/-- A prior `RemoteWorkRequest` row as used by `check_date_overlap`
(`apps/requests/views.py`): status, date range, stored workday count. -/
structure PriorRequest where
  status : String
  start_date : Int
  end_date : Int
  duration_days : Int
deriving DecidableEq, Repr

/-- The queryset predicate of `check_date_overlap` (`apps/requests/views.py`):
`status__in=["approved", "completed", "escalated", "pending"]`, then
`start_date__lte=overlap_end, end_date__gte=overlap_start`, then
`.exclude(status="cancelled")`. -/
def is_nearby (r : PriorRequest) (overlap_start overlap_end : Int) : Bool :=
  (["approved", "completed", "escalated", "pending"].contains r.status
      && (r.start_date ≤ overlap_end && overlap_start ≤ r.end_date))
    && !(r.status == "cancelled")

/-- `buffer_days = 7` in `check_date_overlap`. -/
def buffer_days : Int := 7

/-- The `nearby_requests` queryset of `check_date_overlap`, over an explicit
list of the user's prior requests. -/
def nearby_requests (priors : List PriorRequest) (start endD : Int) : List PriorRequest :=
  priors.filter fun r => is_nearby r (start - buffer_days) (endD + buffer_days)

/-- The `combined_days` computation of `check_date_overlap`
(`apps/requests/views.py`): 0 unless `has_overlap`, else the sum of the
nearby requests' stored `duration_days` plus
`calculate_workdays(start, end)`. -/
def check_date_overlap_combined_days (priors : List PriorRequest) (start endD : Int) : Int :=
  let nearby := nearby_requests priors start endD
  let has_overlap := !nearby.isEmpty
  if has_overlap then
    (nearby.map fun r => r.duration_days).sum + (calculate_workdays (some start) (some endD) : Int)
  else 0

/-- The `flags` list built by the outcome branch of `sirw_wizard_submit`
(`apps/requests/views.py`).  Python's `if instance.exception_type:` is falsy
for `None` and for the empty string. -/
def sirw_wizard_flags (destination_country : String) (has_right_to_work : Bool)
    (confirmed_role_eligible : Bool) (is_exception : Bool) (would_exceed_annual : Bool)
    (exceeds_consecutive : Bool) (exception_type : Option String) : List String :=
  if is_country_blocked destination_country then
    ["sanctioned_country"]
  else if !has_right_to_work then
    ["no_right_to_work"]
  else if !confirmed_role_eligible then
    ["role_ineligible"]
  else if is_exception || would_exceed_annual || exceeds_consecutive then
    (if would_exceed_annual then ["exceeds_annual_limit"] else []) ++
    (if exceeds_consecutive then ["exceeds_consecutive_limit"] else []) ++
    (if is_exception then
      (match exception_type with
       | some t => if t == "" then [] else ["exception:" ++ t]
       | none => [])
     else [])
  else []

/-- A rule whose `evaluate` always raises, exercising the `except` path of
`ComplianceService.assess`. -/
def failingRule : Rule :=
  { name := "Failing Rule", evaluate := fun _ => .error "boom" }

/-- A plain evaluation context used to instantiate universally quantified
theorems at a concrete input. -/
def sampleContext : EvaluationContext :=
  { has_right_to_work := true, is_sales_role := false, duration_days := 5,
    home_country := "Denmark", destination_country := "France" }

/-- The otherwise-ideal context of claim C4: right to work, eligible role,
duration within all limits, only the destination varies. -/
def idealContext (destination : String) : EvaluationContext :=
  { has_right_to_work := true, is_sales_role := false, duration_days := 5,
    home_country := "Denmark", destination_country := destination }

/-- A context whose only varying field is `duration_days`, for the duration
boundary claims. -/
def ctxWithDuration (d : Int) : EvaluationContext :=
  { has_right_to_work := true, is_sales_role := false, duration_days := d,
    home_country := "Denmark", destination_country := "France" }

/-- Modelled from the spec sentence of claim C9, for comparison with the
code: the matched ineligible category labels listed in the fixed category
order (the order of `INELIGIBLE_CATEGORIES`) rather than input order. -/
def fixedOrderFlagged (cats : List String) : List String :=
  (INELIGIBLE_CATEGORIES.filter fun c => cats.contains c).map category_messages

/-- A context with the given ineligible role categories and all other fields
benign, for the role-eligibility claims. -/
def roleCtx (cats : List String) : EvaluationContext :=
  { has_right_to_work := true, is_sales_role := false, duration_days := 5,
    home_country := "Denmark", destination_country := "France",
    ineligible_role_categories := some cats }

/-! ## Helper lemmas -/

/-- The trace returned by `assess` is the list of per-rule verdicts, one per
registered rule, in registration order. -/
theorem assess_rules_eq (rules : List Rule) (ctx : EvaluationContext) :
    (assess rules ctx).rules = rules.map fun r => evalRule r ctx := by
  simp only [assess]
  split
  · rfl
  · split <;> rfl

/-- The outcome returned by `assess`, as a function of the two failure
filters over the trace. -/
theorem assess_outcome_eq (rules : List Rule) (ctx : EvaluationContext) :
    (assess rules ctx).outcome =
      (let rule_results := rules.map fun r => evalRule r ctx
       if rule_results.filter (fun r => !r.passed && r.severity == "block") ≠ [] then "rejected"
       else if rule_results.filter (fun r => !r.passed && r.severity == "warn") ≠ [] then "escalated"
       else "approved") := by
  simp only [assess]
  split
  · simp_all
  · split <;> simp_all

/-- A failure filter over a verdict list is non-empty iff some verdict failed
with the given severity. -/
theorem filter_fail_ne_nil_iff (s : String) (l : List ComplianceRule) :
    l.filter (fun r => !r.passed && r.severity == s) ≠ [] ↔
      ∃ r ∈ l, r.passed = false ∧ r.severity = s := by
  rw [Ne, List.filter_eq_nil_iff]
  push_neg
  simp only [Bool.and_eq_true, Bool.not_eq_true', beq_iff_eq]

/-! ## Claim theorems -/

/-- C1: For every evaluation context, the outcome of `assess` follows strict
precedence: if any collected verdict has severity `"block"` and
`passed = false` the outcome is `"rejected"` regardless of any warn/info
verdicts; otherwise if any collected verdict has severity `"warn"` and
`passed = false` (including synthetic error verdicts) the outcome is
`"escalated"`; otherwise the outcome is `"approved"`. -/
theorem assess_outcome_precedence (rules : List Rule) (ctx : EvaluationContext) :
    (assess rules ctx).outcome =
      if ∃ r ∈ (assess rules ctx).rules, r.passed = false ∧ r.severity = "block" then
        "rejected"
      else if ∃ r ∈ (assess rules ctx).rules, r.passed = false ∧ r.severity = "warn" then
        "escalated"
      else "approved" := by
  rw [assess_outcome_eq, assess_rules_eq]
  simp only [← filter_fail_ne_nil_iff]

/-- C2: `assess` never propagates a rule error: an erroring rule becomes a
synthetic verdict with `passed = false` and severity `"warn"`, the trace has
exactly one verdict per registered rule in registration order, and when no
blocking failure exists the synthetic warning forces outcome `"escalated"`. -/
theorem assess_error_handling (rules : List Rule) (ctx : EvaluationContext)
    (i : Nat) (h : i < rules.length) (e : String)
    (herr : (rules.get ⟨i, h⟩).evaluate ctx = .error e) :
    (assess rules ctx).rules.length = rules.length ∧
    (∀ j (hj : j < rules.length),
      (assess rules ctx).rules[j]? = some (evalRule (rules.get ⟨j, hj⟩) ctx)) ∧
    (assess rules ctx).rules[i]? =
      some { name := (rules.get ⟨i, h⟩).name, passed := false,
             reason := "Error evaluating rule: " ++ e, severity := "warn" } ∧
    ((¬ ∃ r ∈ (assess rules ctx).rules, r.passed = false ∧ r.severity = "block") →
      (assess rules ctx).outcome = "escalated") := by
  rw [assess_rules_eq]
  refine ⟨by simp, ?_, ?_, ?_⟩
  · intro j hj
    simp [List.getElem?_map, List.getElem?_eq_getElem hj]
  · simp only [List.getElem?_map, List.getElem?_eq_getElem h]
    have herr2 : rules[i].evaluate ctx = Except.error e := herr
    simp [evalRule, herr2]
  · intro hnb
    rw [assess_outcome_eq]
    have hb : (rules.map fun r => evalRule r ctx).filter
        (fun r => !r.passed && r.severity == "block") = [] := by
      by_contra hne
      exact hnb ((filter_fail_ne_nil_iff "block" _).mp hne)
    have hw : (rules.map fun r => evalRule r ctx).filter
        (fun r => !r.passed && r.severity == "warn") ≠ [] := by
      rw [filter_fail_ne_nil_iff]
      refine ⟨evalRule (rules.get ⟨i, h⟩) ctx, ?_, ?_⟩
      · exact List.mem_map.mpr ⟨rules.get ⟨i, h⟩, List.get_mem rules i h, rfl⟩
      · have herr2 : rules[i].evaluate ctx = Except.error e := herr
        simp [evalRule, List.get_eq_getElem, herr2]
    simp [hb, hw]

/-- C3: for every evaluation context with `has_right_to_work = false`,
`assess` over the registered `COMPLIANCE_RULES` returns outcome
`"rejected"`, whatever the other context fields are. -/
theorem no_right_to_work_rejected (ctx : EvaluationContext)
    (h : ctx.has_right_to_work = false) :
    (assess COMPLIANCE_RULES ctx).outcome = "rejected" := by
  rw [assess_outcome_eq]
  have hb : (COMPLIANCE_RULES.map fun r => evalRule r ctx).filter
      (fun r => !r.passed && r.severity == "block") ≠ [] := by
    rw [filter_fail_ne_nil_iff]
    refine ⟨RightToWorkRule_evaluate ctx, ?_, ?_, ?_⟩
    · simp [COMPLIANCE_RULES, evalRule, totalRule]
    · simp [RightToWorkRule_evaluate, h]
    · simp [RightToWorkRule_evaluate, h]
  simp [hb]

/-- Witness for C2: a one-rule list whose rule raises; the synthetic verdict
appears in the trace and the assessment escalates. -/
theorem assess_error_handling_witness :
    (assess [failingRule] sampleContext).rules[0]? =
      some { name := "Failing Rule", passed := false,
             reason := "Error evaluating rule: boom", severity := "warn" } ∧
    (assess [failingRule] sampleContext).outcome = "escalated" := by
  have h := assess_error_handling [failingRule] sampleContext 0 (by decide) "boom" rfl
  exact ⟨h.2.2.1, h.2.2.2 (by decide)⟩

/-- Witness for C3: a concrete context without right to work is rejected. -/
theorem no_right_to_work_rejected_witness :
    (assess COMPLIANCE_RULES
      { has_right_to_work := false, is_sales_role := false, duration_days := 5,
        home_country := "Denmark", destination_country := "France" }).outcome = "rejected" :=
  no_right_to_work_rejected _ rfl

/-- C4, counterexample: for the sanctioned destination "Russia" the reason
code is `"sanctions"`, but the flag the wizard submission attaches is the
fixed token `"sanctioned_country"`; no flag equal to the reason code is
carried. -/
theorem sanctioned_flag_counterexample :
    get_block_reason "Russia" = some "sanctions" ∧
    sirw_wizard_flags "Russia" true true false false false none = ["sanctioned_country"] ∧
    ¬ ("sanctions" ∈ sirw_wizard_flags "Russia" true true false false false none) := by
  decide

/-- C4, amended: for every destination in the sanctioned set, `assess` with
an otherwise-ideal context returns outcome `"rejected"`, the "Blocked
Country Check" verdict is the first (failed) verdict in the trace, and the
wizard submission carries the fixed flag `"sanctioned_country"` (not the
country's reason code). -/
theorem sanctioned_destination_rejected (c : BlockedCountry)
    (h : c ∈ SANCTIONED_COUNTRIES) :
    (assess COMPLIANCE_RULES (idealContext c.name)).outcome = "rejected" ∧
    ((assess COMPLIANCE_RULES (idealContext c.name)).rules.head?.map
      fun r => (r.name, r.passed)) = some ("Blocked Country Check", false) ∧
    sirw_wizard_flags c.name true true false false false none = ["sanctioned_country"] := by
  have hall : SANCTIONED_COUNTRIES.all (fun c =>
      ((assess COMPLIANCE_RULES (idealContext c.name)).outcome == "rejected") &&
      (((assess COMPLIANCE_RULES (idealContext c.name)).rules.head?.map
        fun r => (r.name, r.passed)) == some ("Blocked Country Check", false)) &&
      (sirw_wizard_flags c.name true true false false false none ==
        ["sanctioned_country"])) = true := by
    decide
  have hc := List.all_eq_true.mp hall c h
  simp only [Bool.and_eq_true, beq_iff_eq] at hc
  exact ⟨hc.1.1, hc.1.2, hc.2⟩

/-- Witness for C4 (amended): the sanctioned destination "Russia". -/
theorem sanctioned_destination_rejected_witness :
    (assess COMPLIANCE_RULES (idealContext "Russia")).outcome = "rejected" ∧
    sirw_wizard_flags "Russia" true true false false false none = ["sanctioned_country"] := by
  have h := sanctioned_destination_rejected ⟨"Russia", "RU", "sanctions", "Europe"⟩ (by decide)
  exact ⟨h.1, h.2.2⟩

/-- C5: the Duration Limit rule fails iff `duration_days` exceeds the
configured maximum, with severity `"block"` on failure; the
Consecutive Days Limit rule likewise with its own maximum; and at the
configured values (20 and 14), 20 passes / 21 fails Duration Limit and
14 passes / 15 fails Consecutive Days Limit. -/
theorem duration_rule_boundaries (max_days max_consecutive : Int) (ctx : EvaluationContext) :
    ((DurationRule_evaluate max_days ctx).passed = false ↔ max_days < ctx.duration_days) ∧
    ((DurationRule_evaluate max_days ctx).passed = false →
      (DurationRule_evaluate max_days ctx).severity = "block") ∧
    ((ConsecutiveDaysRule_evaluate max_consecutive ctx).passed = false ↔
      max_consecutive < ctx.duration_days) ∧
    ((ConsecutiveDaysRule_evaluate max_consecutive ctx).passed = false →
      (ConsecutiveDaysRule_evaluate max_consecutive ctx).severity = "block") ∧
    (DurationRule_evaluate MAX_SINGLE_TRIP_DAYS (ctxWithDuration 20)).passed = true ∧
    (DurationRule_evaluate MAX_SINGLE_TRIP_DAYS (ctxWithDuration 21)).passed = false ∧
    (ConsecutiveDaysRule_evaluate MAX_CONSECUTIVE_DAYS (ctxWithDuration 14)).passed = true ∧
    (ConsecutiveDaysRule_evaluate MAX_CONSECUTIVE_DAYS (ctxWithDuration 15)).passed = false := by
  refine ⟨?_, ?_, ?_, ?_, by decide, by decide, by decide, by decide⟩
  all_goals
    simp only [DurationRule_evaluate, ConsecutiveDaysRule_evaluate]
  all_goals
    split <;> rename_i hsplit <;> simp <;> omega

/-- Witness for C5: at the configured maximum 20, duration 21 fails the
Duration Limit rule with severity `"block"`. -/
theorem duration_rule_boundaries_witness :
    (DurationRule_evaluate 20 (ctxWithDuration 21)).passed = false ∧
    (DurationRule_evaluate 20 (ctxWithDuration 21)).severity = "block" := by
  have h := duration_rule_boundaries 20 14 (ctxWithDuration 21)
  exact ⟨h.1.mpr (by decide), h.2.1 (h.1.mpr (by decide))⟩

/-- The counting loop of `calculate_workdays` counts exactly the days of the
inclusive range whose weekday is Monday to Friday. -/
theorem countWorkdays_eq_card (current endOrd : Int) :
    countWorkdays current endOrd =
      ((Finset.Icc current endOrd).filter fun d => weekday d < 5).card := by
  generalize hn : (endOrd + 1 - current).toNat = n
  induction n generalizing current with
  | zero =>
    have h : ¬ current ≤ endOrd := by omega
    rw [countWorkdays, if_neg h, Finset.Icc_eq_empty h, Finset.filter_empty,
      Finset.card_empty]
  | succ n ih =>
    have h : current ≤ endOrd := by omega
    rw [countWorkdays, if_pos h, ih (current + 1) (by omega)]
    have hIcc : Finset.Icc current endOrd =
        insert current (Finset.Icc (current + 1) endOrd) := by
      ext x
      simp only [Finset.mem_Icc, Finset.mem_insert]
      omega
    rw [hIcc, Finset.filter_insert]
    by_cases hw : weekday current < 5
    · rw [if_pos hw, if_pos hw,
        Finset.card_insert_of_not_mem (by simp only [Finset.mem_filter, Finset.mem_Icc]; omega)]
      omega
    · rw [if_neg hw, if_neg hw, Nat.zero_add]

/-- `calculate_workdays` at the ordinals of 2024-01-01 (a Monday) and
2024-01-05 (a Friday) is 5. -/
theorem calculate_workdays_jan1_jan5 :
    calculate_workdays (some 738886) (some 738890) = 5 := by
  show countWorkdays 738886 738890 = 5
  rw [countWorkdays_eq_card]
  decide

/-- C6: `calculate_workdays` counts the days of the inclusive range whose
weekday is Monday to Friday; it returns 0 when either date is `None` or when
start > end; at the 2024 example dates (ordinals: 2024-01-01 = 738886 …
2024-01-07 = 738892) it returns 5 and 0 respectively; and on a one-day range
it returns 1 for a weekday, 0 for a weekend day. -/
theorem calculate_workdays_correct (s e d : Int) :
    calculate_workdays (some s) (some e) =
      ((Finset.Icc s e).filter fun x => weekday x < 5).card ∧
    calculate_workdays none (some e) = 0 ∧
    calculate_workdays (some s) none = 0 ∧
    calculate_workdays none none = 0 ∧
    (e < s → calculate_workdays (some s) (some e) = 0) ∧
    calculate_workdays (some 738886) (some 738890) = 5 ∧
    calculate_workdays (some 738891) (some 738892) = 0 ∧
    calculate_workdays (some d) (some d) = (if weekday d < 5 then 1 else 0) := by
  refine ⟨countWorkdays_eq_card s e, rfl, rfl, rfl, ?_, calculate_workdays_jan1_jan5, ?_, ?_⟩
  · intro hlt
    show countWorkdays s e = 0
    rw [countWorkdays, if_neg (by omega)]
  · show countWorkdays 738891 738892 = 0
    rw [countWorkdays_eq_card]
    decide
  · show countWorkdays d d = (if weekday d < 5 then 1 else 0)
    rw [countWorkdays_eq_card, Finset.Icc_self, Finset.filter_singleton]
    split <;> simp_all

/-- Witness for C6: concrete dates with start > end give 0 workdays. -/
theorem calculate_workdays_correct_witness :
    calculate_workdays (some 738891) (some 738886) = 0 :=
  (calculate_workdays_correct 738891 738886 0).2.2.2.2.1 (by decide)

/-- C7, counterexample: a prior request with status `"rejected"` is not
cancelled and its range [10, 12] intersects the buffered window around the
candidate [11, 11], yet the detector does not classify it as nearby
(the queryset only admits approved/completed/escalated/pending). -/
theorem nearby_status_counterexample :
    nearby_requests [⟨"rejected", 10, 12, 3⟩] 11 11 = [] ∧
    ("rejected" : String) ≠ "cancelled" ∧
    (10 : Int) ≤ 11 + buffer_days ∧ (11 : Int) - buffer_days ≤ 12 := by
  decide

/-- C7, amended: a prior request is classified nearby iff its status is one
of approved, completed, escalated, pending AND its date range intersects the
buffered window `[candidate_start - buffer_days, candidate_end + buffer_days]`
(test `prior.start <= window.end AND prior.end >= window.start`). -/
theorem nearby_classification (r : PriorRequest) (priors : List PriorRequest) (s e : Int) :
    r ∈ nearby_requests priors s e ↔
      r ∈ priors ∧
      r.status ∈ (["approved", "completed", "escalated", "pending"] : List String) ∧
      r.start_date ≤ e + buffer_days ∧ s - buffer_days ≤ r.end_date := by
  simp only [nearby_requests, List.mem_filter, is_nearby, Bool.and_eq_true,
    Bool.not_eq_true', List.contains, List.elem_eq_mem, decide_eq_true_eq,
    beq_eq_false_iff_ne]
  constructor
  · rintro ⟨hp, ⟨hst, h1, h2⟩, hnc⟩
    exact ⟨hp, hst, h1, h2⟩
  · rintro ⟨hp, hst, h1, h2⟩
    refine ⟨hp, ⟨hst, h1, h2⟩, ?_⟩
    simp only [List.mem_cons, List.not_mem_nil, or_false] at hst
    rcases hst with h | h | h | h <;> rw [h] <;> decide

/-- C8, counterexample: with no prior requests the detector returns
`combined_days = 0`, not the candidate's own workday count (5 for
2024-01-01..2024-01-05) that the claim requires in the empty case. -/
theorem combined_days_counterexample :
    check_date_overlap_combined_days [] 738886 738890 = 0 ∧
    (([] : List PriorRequest).map fun r => r.duration_days).sum +
      (calculate_workdays (some 738886) (some 738890) : Int) = 5 ∧
    (0 : Int) ≠ 5 := by
  refine ⟨rfl, ?_, by decide⟩
  simp [calculate_workdays_jan1_jan5]

/-- C8, amended: when at least one nearby request exists, `combined_days`
equals the sum of the nearby requests' stored workday counts plus the
candidate's own `calculate_workdays(start, end)`; when none exists it is 0. -/
theorem combined_days_formula (priors : List PriorRequest) (s e : Int) :
    (nearby_requests priors s e = [] → check_date_overlap_combined_days priors s e = 0) ∧
    (nearby_requests priors s e ≠ [] →
      check_date_overlap_combined_days priors s e =
        ((nearby_requests priors s e).map fun r => r.duration_days).sum +
          (calculate_workdays (some s) (some e) : Int)) := by
  constructor
  · intro h
    simp [check_date_overlap_combined_days, h]
  · intro h
    have hne : (nearby_requests priors s e).isEmpty = false := by
      simp [List.isEmpty_eq_true, h]
    simp [check_date_overlap_combined_days, hne]

/-- Witness for C8 (amended): one approved prior with 7 stored workdays near
the candidate 2024-01-01..2024-01-05 (5 workdays) gives 12 combined days. -/
theorem combined_days_formula_witness :
    check_date_overlap_combined_days [⟨"approved", 738880, 738884, 7⟩] 738886 738890 = 12 := by
  have h := (combined_days_formula [⟨"approved", 738880, 738884, 7⟩] 738886 738890).2
    (by decide)
  rw [h, show nearby_requests [⟨"approved", 738880, 738884, 7⟩] 738886 738890 =
    [⟨"approved", 738880, 738884, 7⟩] from by decide, calculate_workdays_jan1_jan5]
  decide

set_option maxRecDepth 4096 in
/-- C9, counterexample: with input categories
`["senior_executive", "frontline_customer_facing"]` (two matches, legacy
flag false), the reason message lists the labels in input order; it differs
from the message built in the fixed category order that the claim requires. -/
theorem flagged_order_counterexample :
    (IneligibleRoleRule_evaluate
      (roleCtx ["senior_executive", "frontline_customer_facing"])).reason =
      "Employee is in an ineligible role category: senior executive leadership role, " ++
        "frontline or customer-facing role. SIRW is not available for this role type " ++
        "(Policy Section 4.1.1)." ∧
    (IneligibleRoleRule_evaluate
      (roleCtx ["senior_executive", "frontline_customer_facing"])).reason ≠
      "Employee is in an ineligible role category: " ++
        String.intercalate ", "
          (fixedOrderFlagged ["senior_executive", "frontline_customer_facing"]) ++
        ". SIRW is not available for this role type (Policy Section 4.1.1)." := by
  decide

/-- C9, amended: when the legacy sales flag is false and at least two input
categories match the fixed ineligible set, the rule fails and its reason
message lists the matched category labels, comma-joined, in the order in
which they appear in the input list (not in the fixed category order). -/
theorem flagged_order_input_order (ctx : EvaluationContext) (cats : List String)
    (hs : ctx.is_sales_role = false)
    (hc : ctx.ineligible_role_categories = some cats)
    (h2 : 2 ≤ (cats.filter fun c => INELIGIBLE_CATEGORIES.contains c).length) :
    (IneligibleRoleRule_evaluate ctx).passed = false ∧
    (IneligibleRoleRule_evaluate ctx).reason =
      "Employee is in an ineligible role category: " ++
        String.intercalate ", "
          ((cats.filter fun c => INELIGIBLE_CATEGORIES.contains c).map category_messages) ++
        ". SIRW is not available for this role type (Policy Section 4.1.1)." := by
  have hfil : (cats.filter fun c => INELIGIBLE_CATEGORIES.contains c) ≠ [] := by
    intro hh
    rw [hh] at h2
    simp at h2
  have hcats : cats.isEmpty = false := by
    cases cats with
    | nil => simp at hfil
    | cons a l => rfl
  have hex : ∃ x ∈ cats, x ∈ INELIGIBLE_CATEGORIES := by
    obtain ⟨x, hx⟩ := List.exists_mem_of_ne_nil _ hfil
    rw [List.mem_filter] at hx
    exact ⟨x, hx.1, by simpa using hx.2⟩
  unfold IneligibleRoleRule_evaluate
  rw [hs, hc]
  simp [hcats, hex]

set_option maxRecDepth 4096 in
/-- Witness for C9 (amended): input `["procurement", "onsite_required"]`
produces the input-order message. -/
theorem flagged_order_input_order_witness :
    (IneligibleRoleRule_evaluate (roleCtx ["procurement", "onsite_required"])).passed = false ∧
    (IneligibleRoleRule_evaluate (roleCtx ["procurement", "onsite_required"])).reason =
      "Employee is in an ineligible role category: procurement role with contract " ++
        "signing authority, role that must be performed on-site. SIRW is not available " ++
        "for this role type (Policy Section 4.1.1)." := by
  have h := flagged_order_input_order (roleCtx ["procurement", "onsite_required"])
    ["procurement", "onsite_required"] rfl rfl (by decide)
  exact ⟨h.1, h.2.trans (by decide)⟩

/-- `contains` over an appended list splits disjunctively. -/
theorem contains_append_iff (l₁ l₂ : List String) (a : String) :
    (l₁ ++ l₂).contains a = true ↔ l₁.contains a = true ∨ l₂.contains a = true := by
  simp [List.contains, List.elem_eq_mem, List.mem_append]

/-- A hit (matching lowered name or code) exists in a country list iff the
lowered-name list or the code list contains the respective key. -/
theorem hit_split (l : List BlockedCountry) (x y : String) :
    (∃ b ∈ l, (pyLower b.name == x || b.code == y) = true) ↔
      ((l.map fun b => pyLower b.name).contains x = true ∨
        (l.map fun b => b.code).contains y = true) := by
  simp only [Bool.or_eq_true, beq_iff_eq, List.contains, List.elem_eq_mem,
    decide_eq_true_eq, List.mem_map]
  constructor
  · rintro ⟨b, hb, h | h⟩
    · exact Or.inl ⟨b, hb, h⟩
    · exact Or.inr ⟨b, hb, h⟩
  · rintro (⟨b, hb, h⟩ | ⟨b, hb, h⟩)
    · exact ⟨b, hb, Or.inl h⟩
    · exact ⟨b, hb, Or.inr h⟩

/-- C10: the three country-classification functions agree on every input:
`is_country_blocked` is true iff `get_block_reason` returns a reason iff
`get_blocked_country_info` returns an entry. -/
theorem classification_functions_agree (country : String) :
    (is_country_blocked country = true ↔ (get_block_reason country).isSome = true) ∧
    ((get_block_reason country).isSome = true ↔
      (get_blocked_country_info country).isSome = true) := by
  have hA : is_country_blocked country = true ↔
      (SANCTIONED_COUNTRY_NAMES.contains (pyStrip (pyLower country)) = true ∨
        NO_ENTITY_COUNTRY_NAMES.contains (pyStrip (pyLower country)) = true) ∨
      (SANCTIONED_COUNTRY_CODES.contains (pyStrip (pyUpper country)) = true ∨
        NO_ENTITY_COUNTRY_CODES.contains (pyStrip (pyUpper country)) = true) := by
    simp only [is_country_blocked, ALL_BLOCKED_COUNTRY_NAMES, ALL_BLOCKED_COUNTRY_CODES,
      Bool.or_eq_true, contains_append_iff]
  have hB : (get_block_reason country).isSome = true ↔
      (SANCTIONED_COUNTRY_NAMES.contains (pyStrip (pyLower country)) = true ∨
        SANCTIONED_COUNTRY_CODES.contains (pyStrip (pyUpper country)) = true) ∨
      (NO_ENTITY_COUNTRY_NAMES.contains (pyStrip (pyLower country)) = true ∨
        NO_ENTITY_COUNTRY_CODES.contains (pyStrip (pyUpper country)) = true) := by
    simp only [get_block_reason]
    split
    · rename_i h1
      rw [Bool.or_eq_true] at h1
      exact ⟨fun _ => Or.inl h1, fun _ => rfl⟩
    · split
      · rename_i h1 h2
        rw [Bool.or_eq_true] at h2
        exact ⟨fun _ => Or.inr h2, fun _ => rfl⟩
      · rename_i h1 h2
        constructor
        · intro hx
          exact absurd hx (by simp)
        · intro hx
          rcases hx with (h | h) | (h | h)
          · exact absurd (by rw [Bool.or_eq_true]; exact Or.inl h) h1
          · exact absurd (by rw [Bool.or_eq_true]; exact Or.inr h) h1
          · exact absurd (by rw [Bool.or_eq_true]; exact Or.inl h) h2
          · exact absurd (by rw [Bool.or_eq_true]; exact Or.inr h) h2
  have hC : (get_blocked_country_info country).isSome = true ↔
      (∃ b ∈ SANCTIONED_COUNTRIES,
        (pyLower b.name == pyStrip (pyLower country) ||
          b.code == pyStrip (pyUpper country)) = true) ∨
      (∃ b ∈ NO_ENTITY_COUNTRIES,
        (pyLower b.name == pyStrip (pyLower country) ||
          b.code == pyStrip (pyUpper country)) = true) := by
    simp only [get_blocked_country_info]
    rw [List.find?_isSome]
    simp only [ALL_BLOCKED_COUNTRIES, List.mem_append]
    constructor
    · rintro ⟨b, hb | hb, hp⟩
      · exact Or.inl ⟨b, hb, hp⟩
      · exact Or.inr ⟨b, hb, hp⟩
    · rintro (⟨b, hb, hp⟩ | ⟨b, hb, hp⟩)
      · exact ⟨b, Or.inl hb, hp⟩
      · exact ⟨b, Or.inr hb, hp⟩
  rw [hA, hB, hC, hit_split, hit_split]
  simp only [SANCTIONED_COUNTRY_NAMES, NO_ENTITY_COUNTRY_NAMES,
    SANCTIONED_COUNTRY_CODES, NO_ENTITY_COUNTRY_CODES]
  constructor
  · constructor
    · rintro ((h | h) | (h | h))
      · exact Or.inl (Or.inl h)
      · exact Or.inr (Or.inl h)
      · exact Or.inl (Or.inr h)
      · exact Or.inr (Or.inr h)
    · rintro ((h | h) | (h | h))
      · exact Or.inl (Or.inl h)
      · exact Or.inr (Or.inl h)
      · exact Or.inl (Or.inr h)
      · exact Or.inr (Or.inr h)
  · trivial

end RemoteWork
